import Mathlib

/-!
Verification of the IntelliSA-CLI triage pipeline.

Shallow embedding of the Python sources:
  * `src/packages/schema/models.py`       — `Detection`, `Prediction`
  * `src/packages/postfilter_llm/engine.py` — model registry / cache / scorer
  * `src/apps/cli/main.py`                — triage split, CSV rows, blocking
  * `src/packages/exporters/sarif.py`     — the SARIF export placeholder,
    embedded as it stands (empty results, fixed driver block)

Python `float` scores are embedded as exact rationals (`ℚ`); machine-level
byte values are `Nat` with explicit `% 256` where they are produced.
Filesystem artifacts enter the model-loading logic only through their
SHA-256 hex digest, so the cache and the download source are represented
by `Option String` (the digest of the file, `none` when absent).
-/

namespace IntelliSA

/-- Python scalar values carried in a `Detection.evidence` mapping
(`Dict[str, Any]` in `src/packages/schema/models.py`); the pipeline only
ever reads such a value through `bool(...)`. -/
inductive PyVal where
  | pnone : PyVal
  | pbool : Bool → PyVal
  | pint : Int → PyVal
  | prat : ℚ → PyVal
  | pstr : String → PyVal
  deriving DecidableEq, Repr

/-- Python truthiness (`bool(x)`) for the embedded values. -/
def PyVal.truthy : PyVal → Bool
  | .pnone => false
  | .pbool b => b
  | .pint n => n != 0
  | .prat q => q != 0
  | .pstr s => s != ""

/-- Model of `Detection` from `src/packages/schema/models.py`.  The `Literal` enums
(`smell`, `tech`, `severity`) are embedded as their string values, which is
how the Python code compares them. -/
structure Detection where
  rule_id : String
  smell : String
  tech : String
  file : String
  line : Int
  snippet : String
  message : String
  severity : String
  evidence : List (String × PyVal)
  deriving DecidableEq, Repr

/-- Model of `Prediction` from `src/packages/schema/models.py`; `score` is the exact
rational value of the Python float. -/
structure Prediction where
  label : String
  score : ℚ
  rationale : Option String
  deriving DecidableEq, Repr

/-- Model of `ModelHandle` from `src/packages/postfilter_llm/engine.py` (the `path`
field is the cache-relative artifact file name). -/
structure ModelHandle where
  name : String
  version : String
  path : String
  framework : String
  default_threshold : ℚ
  labels : List String
  deriving DecidableEq, Repr

/-! ### SHA-256 (`hashlib.sha256`), over byte lists -/

/-- 32-bit rotate right, result kept below `2^32`. -/
def rotr (k w : Nat) : Nat := ((w >>> k) ||| (w <<< (32 - k))) % 4294967296

/-- 32-bit modular addition. -/
def add32 (a b : Nat) : Nat := (a + b) % 4294967296

def ssig0 (w : Nat) : Nat := (rotr 7 w) ^^^ (rotr 18 w) ^^^ (w >>> 3)

def ssig1 (w : Nat) : Nat := (rotr 17 w) ^^^ (rotr 19 w) ^^^ (w >>> 10)

def bsig0 (w : Nat) : Nat := (rotr 2 w) ^^^ (rotr 13 w) ^^^ (rotr 22 w)

def bsig1 (w : Nat) : Nat := (rotr 6 w) ^^^ (rotr 11 w) ^^^ (rotr 25 w)

def chFn (x y z : Nat) : Nat := (x &&& y) ^^^ ((x ^^^ 4294967295) &&& z)

def majFn (x y z : Nat) : Nat := (x &&& y) ^^^ (x &&& z) ^^^ (y &&& z)

/-- SHA-256 round constants. -/
def shaK : List Nat :=
  [1116352408, 1899447441, 3049323471, 3921009573, 961987163, 1508970993,
   2453635748, 2870763221, 3624381080, 310598401, 607225278, 1426881987,
   1925078388, 2162078206, 2614888103, 3248222580, 3835390401, 4022224774,
   264347078, 604807628, 770255983, 1249150122, 1555081692, 1996064986,
   2554220882, 2821834349, 2952996808, 3210313671, 3336571891, 3584528711,
   113926993, 338241895, 666307205, 773529912, 1294757372, 1396182291,
   1695183700, 1986661051, 2177026350, 2456956037, 2730485921, 2820302411,
   3259730800, 3345764771, 3516065817, 3600352804, 4094571909, 275423344,
   430227734, 506948616, 659060556, 883997877, 958139571, 1322822218,
   1537002063, 1747873779, 1955562222, 2024104815, 2227730452, 2361852424,
   2428436474, 2756734187, 3204031479, 3329325298]

/-- SHA-256 initial hash state. -/
def shaH0 : List Nat :=
  [1779033703, 3144134277, 1013904242, 2773480762,
   1359893119, 2600822924, 528734635, 1541459225]

/-- Big-endian bytes of `n`, `k` bytes wide; every byte is `% 256`. -/
def toBytesBE (k n : Nat) : List Nat :=
  (List.range k).map (fun i => (n >>> (8 * (k - 1 - i))) % 256)

/-- Big-endian integer value of a byte list (`int.from_bytes(_, "big")`). -/
def bytesToNat (bs : List Nat) : Nat := bs.foldl (fun a b => a * 256 + b) 0

/-- Extend a message-schedule word list by one word. -/
def scheduleStep (w : List Nat) : List Nat :=
  w ++ [add32 (add32 (ssig1 (w.getD (w.length - 2) 0)) (w.getD (w.length - 7) 0))
              (add32 (ssig0 (w.getD (w.length - 15) 0)) (w.getD (w.length - 16) 0))]

/-- Message schedule: 16 block words extended to 64. -/
def schedule (w16 : List Nat) : List Nat :=
  (List.range 48).foldl (fun w _ => scheduleStep w) w16

/-- One SHA-256 compression round; state is the 8-word list `[a,…,h]`. -/
def shaRound (s : List Nat) (wk : Nat × Nat) : List Nat :=
  let a := s.getD 0 0
  let b := s.getD 1 0
  let c := s.getD 2 0
  let d := s.getD 3 0
  let e := s.getD 4 0
  let f := s.getD 5 0
  let g := s.getD 6 0
  let h := s.getD 7 0
  let t1 := add32 h (add32 (bsig1 e) (add32 (chFn e f g) (add32 wk.2 wk.1)))
  let t2 := add32 (bsig0 a) (majFn a b c)
  [add32 t1 t2, a, b, c, add32 d t1, e, f, g]

/-- Compress one 16-word block into the running hash state. -/
def compress (H : List Nat) (block16 : List Nat) : List Nat :=
  let final := ((schedule block16).zip shaK).foldl shaRound H
  List.zipWith add32 H final

/-- SHA-256 padding: `0x80`, zeros, then the 64-bit big-endian bit length. -/
def shaPad (msg : List Nat) : List Nat :=
  msg ++ [0x80] ++ List.replicate ((119 - (msg.length % 64)) % 64) 0
      ++ toBytesBE 8 (msg.length * 8)

/-- Split a byte list into 64-byte chunks. -/
def chunks64 (l : List Nat) : List (List Nat) :=
  (List.range ((l.length + 63) / 64)).map (fun i => (l.drop (64 * i)).take 64)

/-- The 16 big-endian 32-bit words of one 64-byte block. -/
def words16 (b : List Nat) : List Nat :=
  (List.range 16).map (fun i => bytesToNat ((b.drop (4 * i)).take 4))

/-- SHA-256 digest (32 bytes) of a byte list. -/
def sha256 (msg : List Nat) : List Nat :=
  let H := (chunks64 (shaPad msg)).foldl (fun H b => compress H (words16 b)) shaH0
  (H.map (toBytesBE 4)).flatten

/-! ### JSON serialization (`json.dumps(..., sort_keys=True)`, default
`ensure_ascii=True`), as used by `_stable_score` in
`src/packages/postfilter_llm/engine.py` -/

/-- Lowercase hex digit character. -/
def hexDigitChar (n : Nat) : Char := "0123456789abcdef".data.getD n '0'

/-- A `\uXXXX` JSON escape. -/
def uEsc (n : Nat) : List Char :=
  ['\\', 'u', hexDigitChar ((n >>> 12) % 16), hexDigitChar ((n >>> 8) % 16),
   hexDigitChar ((n >>> 4) % 16), hexDigitChar (n % 16)]

/-- The `json.dumps` escaping of one character (`ensure_ascii=True`): printable
ASCII except quote and backslash is literal, the usual short escapes, and
`\uXXXX` otherwise (surrogate pairs beyond the BMP). -/
def jsonEscChar (c : Char) : List Char :=
  if c = '"' then ['\\', '"']
  else if c = '\\' then ['\\', '\\']
  else if c = '\n' then ['\\', 'n']
  else if c = '\r' then ['\\', 'r']
  else if c = '\t' then ['\\', 't']
  else if c = '\x08' then ['\\', 'b']
  else if c = '\x0c' then ['\\', 'f']
  else if 0x20 ≤ c.toNat ∧ c.toNat ≤ 0x7e then [c]
  else if c.toNat < 0x10000 then uEsc c.toNat
  else uEsc (0xd800 + ((c.toNat - 0x10000) >>> 10)) ++
       uEsc (0xdc00 + ((c.toNat - 0x10000) % 1024))

/-- A JSON string literal (quoted, escaped), as characters. -/
def jsonStr (s : String) : List Char := '"' :: s.data.flatMap jsonEscChar ++ ['"']

/-- Python string `<=` (code-point lexicographic), used by `sort_keys=True`. -/
def lexLe : List Char → List Char → Bool
  | [], _ => true
  | _ :: _, [] => false
  | a :: as, b :: bs =>
    if a.toNat < b.toNat then true
    else if b.toNat < a.toNat then false
    else lexLe as bs

def strLe (a b : String) : Bool := lexLe a.data b.data

/-- Rendering by `json.dumps` of a flat string-valued object with `sort_keys=True` and the
default separators `", "` / `": "`. -/
def jsonObjSorted (pairs : List (String × String)) : List Char :=
  let sorted := pairs.mergeSort (fun a b => strLe a.1 b.1)
  '\x7b' :: (List.intercalate [',', ' ']
    (sorted.map (fun kv => jsonStr kv.1 ++ ':' :: ' ' :: jsonStr kv.2))) ++ ['\x7d']

/-- UTF-8 bytes of one character (`str.encode("utf-8")`). -/
def utf8Char (c : Char) : List Nat :=
  let n := c.toNat
  if n < 0x80 then [n]
  else if n < 0x800 then [0xc0 + (n >>> 6), 0x80 + n % 64]
  else if n < 0x10000 then [0xe0 + (n >>> 12), 0x80 + (n >>> 6) % 64, 0x80 + n % 64]
  else [0xf0 + (n >>> 18), 0x80 + (n >>> 12) % 64, 0x80 + (n >>> 6) % 64, 0x80 + n % 64]

def utf8Encode (cs : List Char) : List Nat := cs.flatMap utf8Char

/-! ### `src/packages/postfilter_llm/engine.py` -/

/-- The serialized payload hashed by `_stable_score`: the six fields written
into the dict literal, key-sorted by `json.dumps(..., sort_keys=True)`. -/
def stableScorePayload (model : ModelHandle) (codeDir : String) (det : Detection) : List Char :=
  jsonObjSorted
    [("model", model.name), ("version", model.version), ("rule", det.rule_id),
     ("file", det.file), ("snippet", det.snippet), ("code_dir", codeDir)]

/-- Model of `_stable_score`: SHA-256 of the canonical payload, leading 8 bytes as a
big-endian integer, divided by `2^64` (exact rational value). -/
def _stable_score (det : Detection) (codeDir : String) (model : ModelHandle) : ℚ :=
  let payload := utf8Encode (stableScorePayload model codeDir det)
  let digest := sha256 payload
  let value := bytesToNat (digest.take 8)
  (value : ℚ) / 2 ^ 64

/-- Model of `predict` of `engine.py`, given the loaded model: maps each detection to
a `Prediction` by comparing its stable score against the effective
threshold (caller override if present, else the model default). -/
def predictCore (model : ModelHandle) (dets : List Detection) (codeDir : String)
    (threshold : Option ℚ) : List Prediction :=
  let eff := match threshold with
    | some t => t
    | none => model.default_threshold
  dets.map fun det =>
    let score := _stable_score det codeDir model
    let label := if eff ≤ score then "TP" else "FP"
    let rationale := if label = "TP" then "score>=threshold" else "score<threshold"
    ⟨label, score, some rationale⟩

/-- Errors raised by `engine.py` (`RuntimeError` / `FileNotFoundError`
instances, identified by which check raised them). -/
inductive EngineError where
  | noModelLoaded : EngineError
  | sourceNotFound : EngineError
  | checksumMismatch : EngineError
  deriving DecidableEq, Repr

/-- Model of `predict` including the module-level `_LOADED_MODEL` guard. -/
def predictS (loaded : Option ModelHandle) (dets : List Detection) (codeDir : String)
    (threshold : Option ℚ) : Except EngineError (List Prediction) :=
  match loaded with
  | none => .error .noModelLoaded
  | some m => .ok (predictCore m dets codeDir threshold)

/-- One entry of `models/registry.yaml` as read by `load_model`
(`entry.get(...)` fields are `Option`s). -/
structure RegistryEntry where
  name : String
  uri : String
  version : Option String
  sha256 : Option String
  framework : Option String
  default_threshold : Option ℚ
  labels : Option (List String)
  deriving DecidableEq, Repr

/-- Python `int(s, 16)`: hexadecimal digits with single underscores between
digits, an optional sign, an optional `0x`/`0X` prefix (an underscore may
directly follow the prefix), surrounding ASCII whitespace allowed. -/
def hexVal (c : Char) : Option Nat :=
  if '0' ≤ c ∧ c ≤ '9' then some (c.toNat - '0'.toNat)
  else if 'a' ≤ c ∧ c ≤ 'f' then some (c.toNat - 'a'.toNat + 10)
  else if 'A' ≤ c ∧ c ≤ 'F' then some (c.toNat - 'A'.toNat + 10)
  else none

def hexCont (acc : Nat) : List Char → Option Nat
  | [] => some acc
  | c :: rest =>
    if c = '_' then
      match rest with
      | [] => none
      | c2 :: rest2 =>
        match hexVal c2 with
        | some v => hexCont (acc * 16 + v) rest2
        | none => none
    else
      match hexVal c with
      | some v => hexCont (acc * 16 + v) rest
      | none => none

/-- A nonempty run of hex digits, single underscores allowed between them. -/
def hexRun : List Char → Option Nat
  | [] => none
  | c :: rest =>
    if c = '_' then none
    else
      match hexVal c with
      | some v => hexCont v rest
      | none => none

/-- Digit part of `int(s, 16)`: after an optional `0x`/`0X` prefix (an
underscore may directly follow it), a hex-digit run. -/
def pyIntHexBody (cs : List Char) : Option Nat :=
  match cs with
  | c0 :: c1 :: rest =>
    if c0 = '0' ∧ (c1 = 'x' ∨ c1 = 'X') then
      match rest with
      | [] => hexRun []
      | c2 :: rest2 => if c2 = '_' then hexRun rest2 else hexRun rest
    else hexRun cs
  | _ => hexRun cs

def isPySpace (c : Char) : Bool :=
  c = ' ' ∨ c = '\t' ∨ c = '\n' ∨ c = '\x0b' ∨ c = '\x0c' ∨ c = '\r'

/-- Python `int(s, 16)` (`None` on `ValueError`). -/
def pyIntHex (s : String) : Option Int :=
  let cs := ((s.data.dropWhile isPySpace).reverse.dropWhile isPySpace).reverse
  match cs with
  | [] => (pyIntHexBody []).map (fun n => (n : Int))
  | c :: rest =>
    if c = '+' then (pyIntHexBody rest).map (fun n => (n : Int))
    else if c = '-' then (pyIntHexBody rest).map (fun n => -(n : Int))
    else (pyIntHexBody (c :: rest)).map (fun n => (n : Int))

/-- Model of `_is_hex_digest` of `engine.py`: false for a missing or empty value or
one whose length is not 64, otherwise whether `int(value, 16)` succeeds. -/
def _is_hex_digest : Option String → Bool
  | none => false
  | some s =>
    if s = "" then false
    else if s.length ≠ 64 then false
    else (pyIntHex s).isSome

/-- The `ModelHandle` constructed by `load_model` from a registry entry
(`targetPath` is the `_target_path` cache location). -/
def mkHandle (entry : RegistryEntry) (targetPath : String) : ModelHandle :=
  ⟨entry.name, entry.version.getD "0", targetPath, entry.framework.getD "unknown",
   entry.default_threshold.getD (1 / 2), entry.labels.getD []⟩

/-- Cache/fetch logic of `load_model` (`engine.py` lines 50–74).  Files are
represented by their SHA-256 hex digest: `cached` is the digest of the file
at the target path (`none` when absent) and `source` the digest of the
artifact the URI points to (`none` when the source is missing / the
download fails).  `_verify_sha path expected` is then `digest = expected`.
Returns the handle and whether a fetch happened. -/
def loadModelCore (entry : RegistryEntry) (targetPath : String)
    (cached : Option String) (source : Option String) :
    Except EngineError (ModelHandle × Bool) :=
  let shouldVerify := _is_hex_digest entry.sha256
  let verifyCached : Bool := match cached, entry.sha256 with
    | some d, some e => d = e
    | _, _ => false
  if cached.isNone || (shouldVerify && !verifyCached) then
    match source with
    | none => .error .sourceNotFound
    | some d =>
      let verifyNew : Bool := match entry.sha256 with
        | some e => d = e
        | none => false
      if shouldVerify && !verifyNew then .error .checksumMismatch
      else .ok (mkHandle entry targetPath, true)
  else .ok (mkHandle entry targetPath, false)

/-- Model of `load_model` including the `_LOADED_MODEL` module state: on success the
new handle replaces the previous one, on failure the state is untouched
(the global is only assigned after all checks pass). -/
def loadModelS (st : Option ModelHandle) (entry : RegistryEntry) (targetPath : String)
    (cached : Option String) (source : Option String) :
    Except EngineError ModelHandle × Option ModelHandle :=
  match loadModelCore entry targetPath cached source with
  | .ok (h, _) => (.ok h, some h)
  | .error e => (.error e, st)

/-! ### `src/apps/cli/main.py` -/

/-- Lookup in an evidence mapping (dict keys are unique). -/
def evLookup (ev : List (String × PyVal)) (k : String) : Option PyVal :=
  (ev.find? (fun p => p.1 == k)).map (·.2)

/-- Key removal from an evidence mapping (`dict.pop`). -/
def evErase (ev : List (String × PyVal)) (k : String) : List (String × PyVal) :=
  ev.filter (fun p => p.1 != k)

/-- Model of `bool(det.evidence.pop("postfilter", False))` together with the detection
whose evidence no longer carries the flag. -/
def popPostfilter (det : Detection) : Bool × Detection :=
  let v := (evLookup det.evidence "postfilter").getD (.pbool false)
  (v.truthy, { det with evidence := evErase det.evidence "postfilter" })

/-- The synthetic category-A prediction (`main.py` line 117). -/
def glitchAccepted : Prediction := ⟨"TP", 1, some "glitch-accepted"⟩

/-- The triage loop of `scan` (`main.py` lines 106–118): returns
`(category_a, category_a_preds, category_b)`, input order preserved. -/
def splitTriage : List Detection → List Detection × List Prediction × List Detection
  | [] => ([], [], [])
  | det :: rest =>
    let needs := (popPostfilter det).1
    let det' := (popPostfilter det).2
    let r := splitTriage rest
    if needs then (r.1, r.2.1, det' :: r.2.2)
    else (det' :: r.1, glitchAccepted :: r.2.1, r.2.2)

/-- The merged sequences built by `scan` (`main.py` lines 138–139):
`category_a ++ category_b` and `category_a_preds ++ predict(category_b)`. -/
def scanMerge (dets : List Detection) (model : ModelHandle) (codeDir : String)
    (threshold : Option ℚ) : List Detection × List Prediction :=
  ((splitTriage dets).1 ++ (splitTriage dets).2.2,
   (splitTriage dets).2.1 ++ predictCore model (splitTriage dets).2.2 codeDir threshold)

/-- Model of `_blocking_findings` (`main.py` lines 218–230). -/
def blockingFindings (dets : List Detection) (preds : List Prediction)
    (failOnHigh : Bool) : List (Detection × Prediction) :=
  let pairs := dets.zip preds
  if failOnHigh then
    pairs.filter (fun dp => dp.2.label == "TP" && dp.1.severity == "high")
  else
    pairs.filter (fun dp => dp.2.label == "TP")

/-- The exit code raised at the end of `scan` (`main.py` lines 157–163). -/
def scanExitCode (dets : List Detection) (preds : List Prediction)
    (failOnHigh : Bool) : Nat :=
  if (blockingFindings dets preds failOnHigh).isEmpty then 0 else 1

/-- The table `CATEGORY_LABELS` (`main.py` lines 23–33). -/
def CATEGORY_LABELS : List (String × String) :=
  [("HTTP_NO_TLS", "Use of HTTP without SSL/TLS"),
   ("WEAK_CRYPTO", "Weak cryptography algorithm"),
   ("HARDCODED_SECRET", "Hard-coded secret"),
   ("SUSPICIOUS_COMMENT", "Suspicious comment"),
   ("ADMIN_DEFAULT", "Admin by default"),
   ("EMPTY_PASSWORD", "Empty password"),
   ("INVALID_BIND", "Unrestricted IP Address"),
   ("NO_INTEGRITY_CHECK", "No integrity check"),
   ("MISSING_DEFAULT_SWITCH", "Missing default switch")]

/-- Lookup `CATEGORY_LABELS.get(det.rule_id, det.message)`. -/
def categoryLabel (det : Detection) : String :=
  ((CATEGORY_LABELS.find? (fun p => p.1 == det.rule_id)).map (·.2)).getD det.message

/-- The table `_FILE_EXTENSIONS` (`main.py` lines 35–39). -/
def FILE_EXTENSIONS : List (String × List String) :=
  [("ansible", [".yml", ".yaml"]), ("chef", [".rb"]), ("puppet", [".pp"])]

/-- The extension set used by `_collect_candidate_files`: the technology's
extensions, or the union of all known extensions for `auto` (or for a
technology absent from the table). -/
def extensionsFor (tech : String) : List String :=
  if tech == "auto" then (FILE_EXTENSIONS.map (·.2)).flatten
  else match FILE_EXTENSIONS.find? (fun p => p.1 == tech) with
    | some kv => kv.2
    | none => (FILE_EXTENSIONS.map (·.2)).flatten

/-- Model of `pathlib.PurePath.name`: the final path component. -/
def pyName (s : String) : String :=
  String.mk ((s.data.reverse.takeWhile (fun c => c ≠ '/')).reverse)

/-- Model of `str.lower` applied per character (the ASCII range, which is
all the extension table contains). -/
def pyLower (s : String) : String := String.mk (s.data.map Char.toLower)

/-- Model of `pathlib.PurePath.suffix`: the extension of the final path component,
empty for dotfiles and trailing dots. -/
def pySuffix (s : String) : String :=
  let name := (pyName s).data
  let tailRev := name.reverse.takeWhile (fun c => c ≠ '.')
  if name.contains '.' ∧ 0 < name.length - 1 - tailRev.length ∧ 0 < tailRev.length then
    String.mk ('.' :: tailRev.reverse)
  else ""

/-- A scan root as `_collect_candidate_files` distinguishes them: a single
file (`resolved_root.is_file()`), carried as its resolved path, or a
directory, carried as the root-relative POSIX paths of the files its
recursive walk yields (a missing root is the directory with no files). -/
inductive ScanRoot where
  | file : String → ScanRoot
  | dir : List String → ScanRoot
  deriving DecidableEq, Repr

/-- Model of `_collect_candidate_files` (`main.py` lines 167–195).  A
single-file root short-circuits to exactly `{resolved_root.name}`, with no
extension filtering (lines 169–170); a directory root yields the walked
files whose lowercased suffix is in the technology's extension set, the
Python set embedded as a deduplicated list. -/
def collectCandidateFiles (root : ScanRoot) (tech : String) : List String :=
  match root with
  | .file path => [pyName path]
  | .dir files =>
    let extensions := extensionsFor tech
    (files.filter (fun f => extensions.contains (pyLower (pySuffix f)))).dedup

/-- One CSV row `(file, line, category_label)`. -/
abbrev Row := String × Int × String

/-- Python tuple order on `(file, line)` used by `rows.sort`. -/
def rowLe (a b : Row) : Bool :=
  if a.1 = b.1 then decide (a.2.1 ≤ b.2.1) else strLe a.1 b.1

/-- Model of `_build_csv_rows` (`main.py` lines 198–216): one row per detection with
the label looked up from `CATEGORY_LABELS` (falling back to the message),
one `(file, 0, "none")` row per candidate file without a detection, the
whole sorted by `(file, line)` (`sort` is stable, as is `mergeSort`). -/
def buildCsvRows (root : ScanRoot) (tech : String)
    (dets : List Detection) : List Row :=
  let detRows : List Row := dets.map (fun det => (det.file, det.line, categoryLabel det))
  let seen := dets.map (·.file)
  let noneRows : List Row :=
    (((collectCandidateFiles root tech).mergeSort strLe).filter
        (fun c => !seen.contains c)).map (fun c => (c, (0 : Int), "none"))
  (detRows ++ noneRows).mergeSort rowLe

/-! ### SARIF export (`src/packages/exporters/sarif.py`) -/

/-- One SARIF `result` object, restricted to the fields the claim names:
`ruleId`, `level`, `message.text`, the single physical location
(`artifactLocation.uri`, `region.startLine`) and the `properties` bag.
The claimed mapping would populate these; the code never constructs one. -/
structure SarifResult where
  ruleId : String
  level : String
  messageText : String
  artifactUri : String
  regionStartLine : Int
  propScore : ℚ
  propRationale : Option String
  deriving DecidableEq, Repr

/-- One SARIF `run` with its `tool.driver` block and `results` array. -/
structure SarifRun where
  driverName : String
  driverVersion : String
  results : List SarifResult
  deriving DecidableEq, Repr

/-- The top-level SARIF document: `version`, `$schema`, and the runs. -/
structure SarifDoc where
  version : String
  schema : String
  runs : List SarifRun
  deriving DecidableEq, Repr

/-- Model of `to_sarif` from `src/packages/exporters/sarif.py`: an
explicitly unfinished placeholder ("do not fully map yet") that discards
both argument lists and returns a fixed skeleton — one run with driver
name `"iacsec (pilot)"`, driver version `"0.0.0"` and an empty `results`
array.  It also takes no `tool_name`/`tool_version` parameters, although
its caller `_export_results` (`main.py` lines 252–257) passes both as
keywords, so the export call raises a `TypeError` before any file is
written. -/
def to_sarif (detections : List Detection) (predictions : List Prediction) : SarifDoc :=
  let _ := (detections, predictions)
  ⟨"2.1.0", "https://json.schemastore.org/sarif-2.1.0.json",
   [⟨"iacsec (pilot)", "0.0.0", []⟩]⟩

/-! ### Spec-side predicates and concrete sample data -/

/-- A hexadecimal character, as the spec's digest-validity rule reads. -/
def isHexChar (c : Char) : Bool :=
  ('0' ≤ c ∧ c ≤ '9') ∨ ('a' ≤ c ∧ c ≤ 'f') ∨ ('A' ≤ c ∧ c ≤ 'F')

/-- The spec's digest-validity rule, literally: "exactly 64 hexadecimal
characters". -/
def spec64Hex (s : String) : Bool := s.length == 64 && s.data.all isHexChar

/-- 64 hex characters: a digest the spec rule and the code both honor. -/
def hexA64 : String := "aaaaaaaaaaaaaaaaaaaaaaaaaaaaaaaaaaaaaaaaaaaaaaaaaaaaaaaaaaaaaaaa"

/-- 64 characters that are not all hexadecimal (`+` then 63 `a`s), yet
`int(value, 16)` accepts the string. -/
def plusA63 : String := "+aaaaaaaaaaaaaaaaaaaaaaaaaaaaaaaaaaaaaaaaaaaaaaaaaaaaaaaaaaaaaaa"

/-- An actual SHA-256 hex digest of some cached file (any value a real
hexdigest could take). -/
def digestB64 : String := "bbbbbbbbbbbbbbbbbbbbbbbbbbbbbbbbbbbbbbbbbbbbbbbbbbbbbbbbbbbbbbbb"

/-- A registry entry declaring the non-hex 64-character digest. -/
def entryPlus : RegistryEntry :=
  ⟨"codet5p-220m", "file:///srv/models/codet5p-220m.bin", some "1.0.0",
   some plusA63, some "torch", some (1 / 2), some ["TP", "FP"]⟩

/-- A registry entry declaring a valid 64-hex digest. -/
def entryValidSha : RegistryEntry :=
  ⟨"codet5p-220m", "file:///srv/models/codet5p-220m.bin", some "1.0.0",
   some hexA64, some "torch", some (1 / 2), some ["TP", "FP"]⟩

/-- A registry entry whose declared digest is too short to be honored. -/
def entryShortSha : RegistryEntry :=
  ⟨"codet5p-220m", "file:///srv/models/codet5p-220m.bin", some "1.0.0",
   some "deadbeef", some "torch", some (1 / 2), some ["TP", "FP"]⟩

/-- Sample detection used to instantiate universally quantified theorems. -/
def detSample : Detection :=
  ⟨"HTTP_NO_TLS", "http", "ansible", "roles/web/tasks/main.yml", 10,
   "get_url: url=http://example.com", "HTTP used without TLS", "medium", []⟩

/-- Same `rule_id`/`file`/`snippet` as `detSample`, every other field
different (line, snippet-independent metadata, evidence). -/
def detSampleNoise : Detection :=
  ⟨"HTTP_NO_TLS", "weak-crypto", "chef", "roles/web/tasks/main.yml", 99,
   "get_url: url=http://example.com", "completely different message", "high",
   [("note", .pstr "extra")]⟩

/-- Sample model handle. -/
def modelSample : ModelHandle :=
  ⟨"codet5p-220m", "1.0.0", "/home/u/.cache/iacsec/codet5p-220m.bin", "torch",
   1 / 2, ["TP", "FP"]⟩

/-- Same `name`/`version` as `modelSample`, all other fields different. -/
def modelSampleNoise : ModelHandle :=
  ⟨"codet5p-220m", "1.0.0", "/elsewhere/m.bin", "onnx", 9 / 10, []⟩

/-- A detection routed to category B (truthy `postfilter` flag). -/
def detFlagged : Detection :=
  ⟨"WEAK_CRYPTO", "weak-crypto", "puppet", "manifests/init.pp", 3,
   "md5(password)", "weak digest", "high", [("postfilter", .pbool true)]⟩

/-! ## Helper lemmas -/

theorem mem_toBytesBE_lt {k n b : Nat} (hb : b ∈ toBytesBE k n) : b < 256 := by
  simp only [toBytesBE, List.mem_map, List.mem_range] at hb
  obtain ⟨i, -, rfl⟩ := hb
  exact Nat.mod_lt _ (by norm_num)

theorem mem_sha256_lt {msg : List Nat} {b : Nat} (hb : b ∈ sha256 msg) : b < 256 := by
  simp only [sha256, List.mem_flatten, List.mem_map] at hb
  obtain ⟨l, ⟨w, -, rfl⟩, hbw⟩ := hb
  exact mem_toBytesBE_lt hbw

theorem foldl_mul256_lt : ∀ (l : List Nat) (a M : Nat), (∀ b ∈ l, b < 256) → a < M →
    l.foldl (fun a b => a * 256 + b) a < M * 256 ^ l.length := by
  intro l
  induction l with
  | nil => intro a M _ h; simpa using h
  | cons x t ih =>
    intro a M hall h
    have hx : x < 256 := hall x (List.mem_cons_self _ _)
    have h1 : a * 256 + x < M * 256 := by
      have hm : a + 1 ≤ M := h
      calc a * 256 + x < (a + 1) * 256 := by omega
        _ ≤ M * 256 := Nat.mul_le_mul_right _ hm
    have h2 := ih (a * 256 + x) (M * 256)
      (fun b hb => hall b (List.mem_cons_of_mem _ hb)) h1
    calc (x :: t).foldl (fun a b => a * 256 + b) a
        = t.foldl (fun a b => a * 256 + b) (a * 256 + x) := rfl
      _ < M * 256 * 256 ^ t.length := h2
      _ = M * 256 ^ (x :: t).length := by
          simp only [List.length_cons, pow_succ]; ring

theorem bytesToNat_lt_pow {l : List Nat} (h : ∀ b ∈ l, b < 256) :
    bytesToNat l < 256 ^ l.length := by
  simpa [bytesToNat] using foldl_mul256_lt l 0 1 h (by norm_num)

theorem score_value_lt (msg : List Nat) :
    bytesToNat ((sha256 msg).take 8) < 2 ^ 64 := by
  have h1 : ∀ b ∈ (sha256 msg).take 8, b < 256 :=
    fun b hb => mem_sha256_lt (List.mem_of_mem_take hb)
  calc bytesToNat ((sha256 msg).take 8)
      < 256 ^ ((sha256 msg).take 8).length := bytesToNat_lt_pow h1
    _ ≤ 256 ^ 8 := Nat.pow_le_pow_right (by norm_num) (List.length_take_le 8 _)
    _ = 2 ^ 64 := by norm_num

/-! ## Claims -/

/-- C1: for every detection, scan root and model handle, the scorer's
result is exactly the big-endian integer of the leading 8 bytes of the
SHA-256 digest of the canonical key-sorted serialization of (model name,
model version, rule_id, file, snippet, scan root), divided by `2^64`; it
lies in `[0, 1)`.  Determinism across repeated calls is definitional: the
scorer is a pure function of these inputs. -/
theorem stable_score_contract (det : Detection) (codeDir : String) (model : ModelHandle) :
    _stable_score det codeDir model =
      (bytesToNat ((sha256 (utf8Encode (stableScorePayload model codeDir det))).take 8) : ℚ)
        / 2 ^ 64
    ∧ 0 ≤ _stable_score det codeDir model ∧ _stable_score det codeDir model < 1 := by
  refine ⟨rfl, ?_, ?_⟩
  · unfold _stable_score
    positivity
  · unfold _stable_score
    rw [div_lt_one (by positivity)]
    exact_mod_cast score_value_lt _

/-- Witness for C1 at concrete inputs. -/
theorem stable_score_contract_witness :
    _stable_score detSample "." modelSample =
      (bytesToNat ((sha256 (utf8Encode (stableScorePayload modelSample "." detSample))).take 8) : ℚ)
        / 2 ^ 64
    ∧ 0 ≤ _stable_score detSample "." modelSample
    ∧ _stable_score detSample "." modelSample < 1 :=
  stable_score_contract detSample "." modelSample

/-- C2: each scored detection is labelled TP exactly when its score is at
least the effective threshold (caller override when present, else the
model's default, so a score equal to the threshold is TP), the score being
the detection's stable score, and the rationale records the branch:
`"score>=threshold"` for TP, `"score<threshold"` for FP. -/
theorem predict_threshold_contract (model : ModelHandle) (dets : List Detection)
    (codeDir : String) (threshold : Option ℚ) :
    List.Forall₂ (fun (det : Detection) (p : Prediction) =>
        p.score = _stable_score det codeDir model
        ∧ (p.label = "TP" ↔
            (match threshold with
             | some t => t
             | none => model.default_threshold) ≤ p.score)
        ∧ (p.label = "TP" ∨ p.label = "FP")
        ∧ p.rationale =
            some (if p.label = "TP" then "score>=threshold" else "score<threshold"))
      dets (predictCore model dets codeDir threshold) := by
  simp only [predictCore]
  rw [List.forall₂_map_right_iff, List.forall₂_same]
  intro det _
  by_cases hle :
      (match threshold with
       | some t => t
       | none => model.default_threshold) ≤ _stable_score det codeDir model
  · simp [hle]
  · have hne : ("FP" : String) ≠ "TP" := by decide
    simp [hle, hne]

/-- Witness for C2: the pairing relation at a concrete one-detection run;
the proof instantiates the theorem. -/
theorem predict_threshold_contract_witness :
    (predictCore modelSample [detSample] "." none).length = 1 :=
  (predict_threshold_contract modelSample [detSample] "." none).length_eq.symm ▸ rfl

theorem splitTriage_b (dets : List Detection) :
    (splitTriage dets).2.2
      = (dets.filter (fun d => (popPostfilter d).1)).map (fun d => (popPostfilter d).2) := by
  induction dets with
  | nil => rfl
  | cons det rest ih =>
    by_cases h : (popPostfilter det).1 <;> simp [splitTriage, h, ih]

theorem splitTriage_a (dets : List Detection) :
    (splitTriage dets).1
      = (dets.filter (fun d => !(popPostfilter d).1)).map (fun d => (popPostfilter d).2) := by
  induction dets with
  | nil => rfl
  | cons det rest ih =>
    by_cases h : (popPostfilter det).1 <;> simp [splitTriage, h, ih]

theorem splitTriage_ap (dets : List Detection) :
    (splitTriage dets).2.1
      = (dets.filter (fun d => !(popPostfilter d).1)).map (fun _ => glitchAccepted) := by
  induction dets with
  | nil => rfl
  | cons det rest ih =>
    by_cases h : (popPostfilter det).1 <;> simp [splitTriage, h, ih]

/-- C3: the triage split routes a detection to category B exactly when its
evidence carries a truthy `postfilter` flag, the flag being removed from
the evidence (`popPostfilter`); category A detections are paired
one-for-one with the synthetic `glitch-accepted` TP prediction of score 1;
the merged output is category A followed by category B, order preserved
within each (filters of the input), and the merged detection and
prediction sequences have equal length. -/
theorem triage_merge_contract (dets : List Detection) (model : ModelHandle)
    (codeDir : String) (threshold : Option ℚ) :
    (splitTriage dets).2.2
        = (dets.filter (fun d => (popPostfilter d).1)).map (fun d => (popPostfilter d).2)
    ∧ (splitTriage dets).1
        = (dets.filter (fun d => !(popPostfilter d).1)).map (fun d => (popPostfilter d).2)
    ∧ (splitTriage dets).2.1 = (splitTriage dets).1.map (fun _ => glitchAccepted)
    ∧ (scanMerge dets model codeDir threshold).1
        = (splitTriage dets).1 ++ (splitTriage dets).2.2
    ∧ (scanMerge dets model codeDir threshold).2
        = (splitTriage dets).2.1 ++ predictCore model (splitTriage dets).2.2 codeDir threshold
    ∧ (scanMerge dets model codeDir threshold).1.length
        = (scanMerge dets model codeDir threshold).2.length := by
  refine ⟨splitTriage_b dets, splitTriage_a dets, ?_, rfl, rfl, ?_⟩
  · rw [splitTriage_ap dets, splitTriage_a dets, List.map_map]
    rfl
  · simp only [scanMerge, List.length_append, splitTriage_ap dets, splitTriage_a dets,
      predictCore, List.length_map]

/-- Witness for C3: the pairing invariant at a concrete mixed input. -/
theorem triage_merge_contract_witness :
    (scanMerge [detFlagged, detSample] modelSample "." none).1.length
      = (scanMerge [detFlagged, detSample] modelSample "." none).2.length :=
  (triage_merge_contract [detFlagged, detSample] modelSample "." none).2.2.2.2.2

/-- C4: a pair is blocking exactly when its prediction is labelled TP and,
under `fail_on_high`, its detection's severity is high; the exit code is 0
when the blocking subset is empty and 1 otherwise. -/
theorem blocking_policy_contract (dets : List Detection) (preds : List Prediction)
    (failOnHigh : Bool) :
    (∀ dp : Detection × Prediction,
        dp ∈ blockingFindings dets preds failOnHigh ↔
          dp ∈ dets.zip preds ∧ dp.2.label = "TP"
            ∧ (failOnHigh = false ∨ dp.1.severity = "high"))
    ∧ scanExitCode dets preds failOnHigh =
        (if blockingFindings dets preds failOnHigh = [] then 0 else 1) := by
  constructor
  · intro dp
    cases failOnHigh <;>
      simp [blockingFindings, List.mem_filter, and_assoc]
  · by_cases hb : blockingFindings dets preds failOnHigh = [] <;>
      simp [scanExitCode, hb]

/-- Witness for C4: the spec's own example — a high TP and a medium TP;
`fail_on_high` keeps only the high pair blocking, and the exit code is 1. -/
theorem blocking_policy_contract_witness :
    ((detFlagged, glitchAccepted) ∈
        blockingFindings [detFlagged, detSample] [glitchAccepted, glitchAccepted] true ↔
      (detFlagged, glitchAccepted) ∈
          [detFlagged, detSample].zip [glitchAccepted, glitchAccepted]
        ∧ glitchAccepted.label = "TP" ∧ (true = false ∨ detFlagged.severity = "high")) :=
  (blocking_policy_contract [detFlagged, detSample] [glitchAccepted, glitchAccepted] true).1
    (detFlagged, glitchAccepted)

/-- C9: the scorer fails with the no-model-loaded error exactly when no
model-load has succeeded (the module state is empty), and a successful
`load_model` replaces the active handle with the new one while a failing
one leaves the state untouched (last-load-wins, not a stack). -/
theorem model_state_contract (st : Option ModelHandle) (dets : List Detection)
    (codeDir : String) (threshold : Option ℚ) (entry : RegistryEntry)
    (targetPath : String) (cached source : Option String) :
    (predictS st dets codeDir threshold = .error .noModelLoaded ↔ st = none)
    ∧ (loadModelS st entry targetPath cached source).2 =
        (match (loadModelS st entry targetPath cached source).1 with
         | .ok h => some h
         | .error _ => st) := by
  constructor
  · cases st <;> simp [predictS]
  · cases h : loadModelCore entry targetPath cached source with
    | ok v => obtain ⟨hh, f⟩ := v; simp [loadModelS, h]
    | error e => simp [loadModelS, h]

/-- Witness for C9: predicting with no model loaded fails, and a load that
errors on a checksum mismatch leaves the empty state empty. -/
theorem model_state_contract_witness :
    (predictS none [detSample] "." none = .error .noModelLoaded ↔ (none : Option ModelHandle) = none) :=
  (model_state_contract none [detSample] "." none entryValidSha "m.bin" none none).1

/-- C6: with a valid (honored) digest declared, when the cached artifact is
absent or fails verification and the freshly fetched artifact's digest
still differs from the declared one, `load_model` fails with the checksum
mismatch error, producing no handle and leaving the active-model state
unchanged. -/
theorem checksum_mismatch_fatal (st : Option ModelHandle) (entry : RegistryEntry)
    (targetPath : String) (cached : Option String) (exp d : String)
    (hsha : entry.sha256 = some exp)
    (hvalid : _is_hex_digest entry.sha256 = true)
    (hcache : cached ≠ some exp)
    (hbad : d ≠ exp) :
    loadModelS st entry targetPath cached (some d) = (.error .checksumMismatch, st) := by
  have hvalid' : _is_hex_digest (some exp) = true := by rwa [hsha] at hvalid
  cases cached with
  | none =>
    simp [loadModelS, loadModelCore, hsha, hvalid', hbad]
  | some c =>
    have hc : ¬ c = exp := fun h => hcache (by rw [h])
    simp [loadModelS, loadModelCore, hsha, hvalid', hbad, hc]

/-- Witness for C6: a valid declared digest, a mismatching cached file, and
a re-fetched artifact with the same wrong bytes — the load fails with the
checksum mismatch and the (empty) state stays empty. -/
theorem checksum_mismatch_fatal_witness :
    loadModelS none entryValidSha "codet5p-220m.bin" (some digestB64) (some digestB64)
      = (.error .checksumMismatch, none) :=
  checksum_mismatch_fatal none entryValidSha "codet5p-220m.bin" (some digestB64)
    hexA64 digestB64 rfl (by decide) (by decide) (by decide)

/-- C10: the stable score depends on nothing outside the model name, model
version, detection rule_id, file, snippet and the scan root: two
detections agreeing on those fields (under model handles agreeing on name
and version) score identically, and the threshold override does not affect
the scores `predict` emits. -/
theorem score_noninterference (d1 d2 : Detection) (m1 m2 : ModelHandle) (codeDir : String)
    (hr : d1.rule_id = d2.rule_id) (hf : d1.file = d2.file) (hs : d1.snippet = d2.snippet)
    (hn : m1.name = m2.name) (hv : m1.version = m2.version) :
    _stable_score d1 codeDir m1 = _stable_score d2 codeDir m2
    ∧ ∀ (dets : List Detection) (thr thr' : Option ℚ),
        (predictCore m1 dets codeDir thr).map (fun p => p.score)
          = (predictCore m1 dets codeDir thr').map (fun p => p.score) := by
  constructor
  · unfold _stable_score stableScorePayload
    rw [hr, hf, hs, hn, hv]
  · intro dets thr thr'
    simp only [predictCore, List.map_map]
    rfl

/-- Witness for C10: two detections differing in smell, tech, line,
message, severity and evidence — and two handles differing in path,
framework, threshold and labels — produce the same score. -/
theorem score_noninterference_witness :
    _stable_score detSample "." modelSample = _stable_score detSampleNoise "." modelSampleNoise :=
  (score_noninterference detSample detSampleNoise modelSample modelSampleNoise "."
    rfl rfl rfl rfl rfl).1

/-- C7: the claim describes the intended export — the spec and the
repository's own `test_scan_writes_sarif_and_json` (which asserts
`results[0]["ruleId"] == "HTTP_NO_TLS"`) both expect one result per pair —
but `to_sarif` in `src/packages/exporters/sarif.py` is an unfinished
placeholder.  Evaluated at the repository test's own pair it returns a
single run with an *empty* results array (zero results for one pair) and
the fixed driver version `"0.0.0"`, not the model version `"1.0.0"`; and
since it accepts no tool name/version arguments, the call its caller
makes cannot even complete. -/
theorem sarif_scaffold_contradicts_claim :
    (to_sarif [detSample] [⟨"TP", 9 / 10, some "score>=threshold"⟩]).runs
        = [⟨"iacsec (pilot)", "0.0.0", []⟩]
    ∧ ((to_sarif [detSample] [⟨"TP", 9 / 10, some "score>=threshold"⟩]).runs.map
        (fun r => r.results.length)) = [0]
    ∧ ([detSample].zip [(⟨"TP", 9 / 10, some "score>=threshold"⟩ : Prediction)]).length = 1
    ∧ modelSample.version = "1.0.0" :=
  ⟨rfl, rfl, rfl, rfl⟩

theorem hexVal_isSome_of_hex {c : Char} (h : isHexChar c = true) : (hexVal c).isSome = true := by
  unfold isHexChar at h
  rw [decide_eq_true_eq] at h
  unfold hexVal
  rcases h with h | h | h
  · rw [if_pos h]; rfl
  · rw [if_neg (fun hc => absurd (le_trans h.1 hc.2) (by decide)), if_pos h]; rfl
  · rw [if_neg (fun hc => absurd (le_trans h.1 hc.2) (by decide)),
      if_neg (fun hc => absurd (le_trans hc.1 h.2) (by decide)), if_pos h]; rfl

theorem hexChar_facts {c : Char} (h : isHexChar c = true) :
    isPySpace c = false ∧ c ≠ '_' ∧ c ≠ '+' ∧ c ≠ '-' ∧ c ≠ 'x' ∧ c ≠ 'X' := by
  unfold isHexChar at h
  rw [decide_eq_true_eq] at h
  refine ⟨?_, ?_, ?_, ?_, ?_, ?_⟩
  · unfold isPySpace
    rw [decide_eq_false_iff_not]
    rintro (e | e | e | e | e | e) <;> (subst e; revert h; decide)
  all_goals (intro e; subst e; revert h; decide)

theorem hexCont_isSome : ∀ (l : List Char), (∀ c ∈ l, isHexChar c = true) →
    ∀ acc, (hexCont acc l).isSome = true := by
  intro l
  induction l with
  | nil => intro _ acc; rfl
  | cons x t ih =>
    intro hall acc
    have hx := hall x (List.mem_cons_self _ _)
    obtain ⟨v, hv⟩ := Option.isSome_iff_exists.mp (hexVal_isSome_of_hex hx)
    show (hexCont acc (x :: t)).isSome = true
    unfold hexCont
    rw [if_neg (hexChar_facts hx).2.1, hv]
    exact ih (fun c hc => hall c (List.mem_cons_of_mem _ hc)) _

theorem hexRun_isSome : ∀ (l : List Char), l ≠ [] → (∀ c ∈ l, isHexChar c = true) →
    (hexRun l).isSome = true := by
  intro l hne hall
  cases l with
  | nil => exact absurd rfl hne
  | cons x t =>
    have hx := hall x (List.mem_cons_self _ _)
    obtain ⟨v, hv⟩ := Option.isSome_iff_exists.mp (hexVal_isSome_of_hex hx)
    simp only [hexRun, if_neg (hexChar_facts hx).2.1, hv]
    exact hexCont_isSome t (fun c hc => hall c (List.mem_cons_of_mem _ hc)) v

theorem pyIntHexBody_isSome : ∀ (l : List Char), l ≠ [] → (∀ c ∈ l, isHexChar c = true) →
    (pyIntHexBody l).isSome = true := by
  intro l hne hall
  cases l with
  | nil => exact absurd rfl hne
  | cons c0 t =>
    cases t with
    | nil =>
      simp only [pyIntHexBody]
      exact hexRun_isSome [c0] (by simp) hall
    | cons c1 t2 =>
      have hc1 := hexChar_facts (hall c1 (List.mem_cons_of_mem _ (List.mem_cons_self _ _)))
      simp only [pyIntHexBody]
      rw [if_neg (by rintro ⟨-, e | e⟩ <;> [exact hc1.2.2.2.2.1 e; exact hc1.2.2.2.2.2 e])]
      exact hexRun_isSome _ (by simp) hall

theorem dropWhile_hex (l : List Char) (hall : ∀ c ∈ l, isHexChar c = true) :
    l.dropWhile isPySpace = l := by
  cases l with
  | nil => rfl
  | cons c t =>
    have hf := (hexChar_facts (hall c (List.mem_cons_self _ _))).1
    rw [List.dropWhile_cons, if_neg (by simp [hf])]

theorem pyIntHex_isSome_of_hex (s : String) (hne : s.data ≠ [])
    (hall : ∀ c ∈ s.data, isHexChar c = true) : (pyIntHex s).isSome = true := by
  have h1 : s.data.dropWhile isPySpace = s.data := dropWhile_hex _ hall
  have h2 : s.data.reverse.dropWhile isPySpace = s.data.reverse :=
    dropWhile_hex _ (fun c hc => hall c (List.mem_reverse.mp hc))
  cases hd : s.data with
  | nil => exact absurd hd hne
  | cons c0 t =>
    have hc0 := hexChar_facts (hall c0 (hd ▸ List.mem_cons_self _ _))
    simp only [pyIntHex]
    rw [h1, h2, List.reverse_reverse, hd]
    have hb := pyIntHexBody_isSome (c0 :: t) (by simp) (hd ▸ hall)
    obtain ⟨v, hv⟩ := Option.isSome_iff_exists.mp hb
    simp only [if_neg hc0.2.2.1, if_neg hc0.2.2.2.1, hv]
    rfl

theorem is_hex_digest_iff (s : String) :
    _is_hex_digest (some s) = true ↔ (s.length = 64 ∧ (pyIntHex s).isSome = true) := by
  simp only [_is_hex_digest]
  by_cases he : s = ""
  · subst he; simp
  · rw [if_neg he]
    by_cases hl : s.length = 64
    · rw [if_neg (not_not_intro hl)]
      simp [hl]
    · rw [if_pos hl]
      simp [hl]

theorem no_verify_cache_ok (entry : RegistryEntry) (targetPath d : String)
    (source : Option String) (h : _is_hex_digest entry.sha256 = false) :
    loadModelCore entry targetPath (some d) source = .ok (mkHandle entry targetPath, false) := by
  simp [loadModelCore, h]

/-- C5 counterexample: the 64-character string `"+aaa…a"` is not made of 64
hexadecimal characters, yet the code honors it as a digest
(`int(value, 16)` accepts a sign), so with it declared a present cached
artifact is *not* sufficient: the load verifies, re-fetches, and dies with
the checksum mismatch instead of succeeding. -/
theorem digest_rule_counterexample :
    spec64Hex plusA63 = false
    ∧ _is_hex_digest (some plusA63) = true
    ∧ loadModelS none entryPlus "codet5p-220m.bin" (some digestB64) (some digestB64)
        = (.error .checksumMismatch, none) := by
  refine ⟨by decide, by decide, ?_⟩
  rfl

/-- C5 (amended): a declared digest is honored iff it has exactly 64
characters and `int(value, 16)` parses it — every string of exactly 64
hexadecimal characters is honored, but so are 64-character variants with a
sign, `0x` prefix, underscores or surrounding whitespace; a missing value
is never honored, and when the digest is not honored a cached artifact's
existence alone suffices (no verification, no fetch). -/
theorem digest_rule_amended :
    (∀ s : String, _is_hex_digest (some s) = true ↔ (s.length = 64 ∧ (pyIntHex s).isSome = true))
    ∧ (∀ s : String, spec64Hex s = true → _is_hex_digest (some s) = true)
    ∧ _is_hex_digest none = false
    ∧ (∀ (entry : RegistryEntry) (targetPath d : String) (source : Option String),
        _is_hex_digest entry.sha256 = false →
          loadModelCore entry targetPath (some d) source
            = .ok (mkHandle entry targetPath, false)) := by
  refine ⟨is_hex_digest_iff, ?_, rfl, no_verify_cache_ok⟩
  intro s h
  unfold spec64Hex at h
  rw [Bool.and_eq_true] at h
  obtain ⟨h1, h2⟩ := h
  have hlen : s.length = 64 := by simpa using h1
  rw [List.all_eq_true] at h2
  have hne : s.data ≠ [] := by
    intro e
    rw [show s.length = s.data.length from rfl, e] at hlen
    simp at hlen
  exact (is_hex_digest_iff s).mpr ⟨hlen, pyIntHex_isSome_of_hex s hne h2⟩

/-- Witness for C5 (amended): a 64-hex-character digest is honored, and a
load with an unhonored (8-character) digest accepts the cached artifact
as-is, without fetching. -/
theorem digest_rule_amended_witness :
    _is_hex_digest (some hexA64) = true
    ∧ loadModelCore entryShortSha "codet5p-220m.bin" (some digestB64) none
        = .ok (mkHandle entryShortSha "codet5p-220m.bin", false) :=
  ⟨digest_rule_amended.2.1 hexA64 (by decide),
   digest_rule_amended.2.2.2 entryShortSha "codet5p-220m.bin" digestB64 none (by decide)⟩

theorem lexLe_total : ∀ a b : List Char, lexLe a b = true ∨ lexLe b a = true := by
  intro a
  induction a with
  | nil => intro b; left; rfl
  | cons x xs ih =>
    intro b
    cases b with
    | nil => right; rfl
    | cons y ys =>
      rcases Nat.lt_trichotomy x.toNat y.toNat with h | h | h
      · left; simp [lexLe, h]
      · rcases ih ys with h2 | h2
        · left; simp [lexLe, h, h2]
        · right; simp [lexLe, h.symm, h2]
      · right; simp [lexLe, h]

theorem lexLe_trans : ∀ a b c : List Char,
    lexLe a b = true → lexLe b c = true → lexLe a c = true := by
  intro a
  induction a with
  | nil => intro b c _ _; rfl
  | cons x xs ih =>
    intro b c hab hbc
    cases b with
    | nil => simp [lexLe] at hab
    | cons y ys =>
      cases c with
      | nil => simp [lexLe] at hbc
      | cons z zs =>
        by_cases h1 : x.toNat < y.toNat
        · by_cases h2 : y.toNat < z.toNat
          · simp [lexLe, h1.trans h2]
          · by_cases h3 : z.toNat < y.toNat
            · simp [lexLe, h2, h3] at hbc
            · have hyz : y.toNat = z.toNat := le_antisymm (not_lt.mp h3) (not_lt.mp h2)
              simp [lexLe, hyz ▸ h1]
        · by_cases h1' : y.toNat < x.toNat
          · simp [lexLe, h1, h1'] at hab
          · have hxy : x.toNat = y.toNat := le_antisymm (not_lt.mp h1') (not_lt.mp h1)
            have hab' : lexLe xs ys = true := by simpa [lexLe, h1, h1'] using hab
            by_cases h2 : y.toNat < z.toNat
            · simp [lexLe, hxy ▸ h2]
            · by_cases h3 : z.toNat < y.toNat
              · simp [lexLe, h2, h3] at hbc
              · have hyz : y.toNat = z.toNat := le_antisymm (not_lt.mp h3) (not_lt.mp h2)
                have hbc' : lexLe ys zs = true := by simpa [lexLe, h2, h3] using hbc
                have h4 : ¬ x.toNat < z.toNat := by omega
                have h5 : ¬ z.toNat < x.toNat := by omega
                simp [lexLe, h4, h5, ih ys zs hab' hbc']

theorem lexLe_antisymm : ∀ a b : List Char,
    lexLe a b = true → lexLe b a = true → a = b := by
  intro a
  induction a with
  | nil =>
    intro b _ hba
    cases b with
    | nil => rfl
    | cons y ys => simp [lexLe] at hba
  | cons x xs ih =>
    intro b hab hba
    cases b with
    | nil => simp [lexLe] at hab
    | cons y ys =>
      by_cases h1 : x.toNat < y.toNat
      · simp [lexLe, h1, Nat.lt_asymm h1] at hba
      · by_cases h2 : y.toNat < x.toNat
        · simp [lexLe, h1, h2] at hab
        · have hxy : x.toNat = y.toNat := le_antisymm (not_lt.mp h2) (not_lt.mp h1)
          have hx : x = y := by
            have := congrArg Char.ofNat hxy
            rwa [Char.ofNat_toNat, Char.ofNat_toNat] at this
          have hab' : lexLe xs ys = true := by simpa [lexLe, h1, h2] using hab
          have hba' : lexLe ys xs = true := by
            simpa [lexLe, h1, h2, hxy] using hba
          rw [hx, ih ys hab' hba']

theorem strLe_total (a b : String) : strLe a b = true ∨ strLe b a = true :=
  lexLe_total a.data b.data

theorem strLe_trans {a b c : String} (h1 : strLe a b = true) (h2 : strLe b c = true) :
    strLe a c = true :=
  lexLe_trans a.data b.data c.data h1 h2

theorem strLe_antisymm {a b : String} (h1 : strLe a b = true) (h2 : strLe b a = true) :
    a = b := by
  have := lexLe_antisymm a.data b.data h1 h2
  cases a; cases b
  exact congrArg String.mk (by simpa using this)

theorem rowLe_trans (a b c : Row) (h1 : rowLe a b = true) (h2 : rowLe b c = true) :
    rowLe a c = true := by
  unfold rowLe at h1 h2 ⊢
  by_cases eab : a.1 = b.1 <;> by_cases ebc : b.1 = c.1
  · rw [if_pos eab] at h1
    rw [if_pos ebc] at h2
    rw [if_pos (eab.trans ebc)]
    rw [decide_eq_true_eq] at h1 h2 ⊢
    exact le_trans h1 h2
  · rw [if_neg ebc] at h2
    rw [if_neg (fun e => ebc (eab ▸ e))]
    rwa [eab]
  · rw [if_neg eab] at h1
    rw [if_neg (fun e => eab (e.trans ebc.symm))]
    rwa [← ebc]
  · rw [if_neg eab] at h1
    rw [if_neg ebc] at h2
    by_cases eac : a.1 = c.1
    · exact absurd (strLe_antisymm h1 (eac ▸ h2)) eab
    · rw [if_neg eac]
      exact strLe_trans h1 h2

theorem rowLe_total (a b : Row) : (rowLe a b || rowLe b a) = true := by
  unfold rowLe
  by_cases e : a.1 = b.1
  · rw [if_pos e, if_pos e.symm]
    rcases le_total a.2.1 b.2.1 with h | h <;> simp [h]
  · rw [if_neg e, if_neg (fun e2 => e e2.symm)]
    rcases strLe_total a.1 b.1 with h | h <;> simp [h]

/-- C8 counterexample: at the single-file scan root `/tmp/notes.txt` with
technology `ansible` and no detections, the code's candidate set is the
file's name although `.txt` is not in ansible's extension set — the CSV
gains a `("notes.txt", 0, "none")` row the claim's extension-based
candidate selection forbids (lines 169–170 of `main.py` return
`{resolved_root.name}` for a file root without any filtering). -/
theorem csv_rows_counterexample :
    buildCsvRows (.file "/tmp/notes.txt") "ansible" [] = [("notes.txt", 0, "none")]
    ∧ (extensionsFor "ansible").contains (pyLower (pySuffix "notes.txt")) = false
    ∧ collectCandidateFiles (.file "/tmp/notes.txt") "ansible" = ["notes.txt"] := by
  refine ⟨?_, by decide, by decide⟩
  simp [buildCsvRows, List.mergeSort_singleton, collectCandidateFiles]
  decide

/-- C8 (amended): the CSV rows are exactly (as a multiset, in sorted order
by `(file, line)`) one `(file, line, label)` row per detection — the label
looked up from `CATEGORY_LABELS` with the message as fallback
(`categoryLabel`) — plus one `(file, 0, "none")` row per candidate file
with no detection; for a directory scan root the candidate files are
exactly the walked files whose lowercased suffix belongs to the
technology's extension set (the union of all known sets for `auto`), while
for a single-file scan root the candidate set is exactly that file's name,
with no extension filtering. -/
theorem csv_rows_contract (root : ScanRoot) (tech : String) (dets : List Detection) :
    List.Perm (buildCsvRows root tech dets)
      (dets.map (fun det => ((det.file : String), det.line, categoryLabel det)) ++
        (((collectCandidateFiles root tech).mergeSort strLe).filter
            (fun c => !(dets.map (fun d => d.file)).contains c)).map
          (fun c => ((c : String), (0 : Int), ("none" : String))))
    ∧ List.Pairwise (fun a b : Row => rowLe a b = true) (buildCsvRows root tech dets)
    ∧ (∀ (files : List String) (f : String),
        f ∈ collectCandidateFiles (.dir files) tech ↔
          f ∈ files ∧ pyLower (pySuffix f) ∈ extensionsFor tech)
    ∧ (∀ path : String, collectCandidateFiles (.file path) tech = [pyName path]) := by
  refine ⟨?_, ?_, ?_, fun path => rfl⟩
  · simp only [buildCsvRows]
    exact List.mergeSort_perm _ _
  · simp only [buildCsvRows]
    exact List.sorted_mergeSort rowLe_trans rowLe_total _
  · intro files f
    simp [collectCandidateFiles, List.mem_dedup, List.mem_filter,
      List.contains, List.elem_iff]

/-- Witness for C8: the directory-root candidate characterization and the
single-file-root rule at concrete scan roots. -/
theorem csv_rows_contract_witness :
    ("a.yml" ∈ collectCandidateFiles (.dir ["a.yml", "b.txt"]) "ansible" ↔
      "a.yml" ∈ ["a.yml", "b.txt"]
        ∧ pyLower (pySuffix "a.yml") ∈ extensionsFor "ansible")
    ∧ collectCandidateFiles (.file "/srv/play.yml") "chef" = [pyName "/srv/play.yml"] :=
  ⟨(csv_rows_contract (.dir ["a.yml", "b.txt"]) "ansible" []).2.2.1 ["a.yml", "b.txt"] "a.yml",
   (csv_rows_contract (.file "/srv/play.yml") "chef" []).2.2.2 "/srv/play.yml"⟩

end IntelliSA
